import Mathlib

/-!
Verification development for the DNN estimator module
(`tensorflow/contrib/learn/python/learn/estimators/dnn.py`).

The module is configuration glue: it assembles a symbolic tensor graph
(input encoding, stacked fully-connected layers, logits) and wires it to an
external head.  Graph construction is shallowly embedded as an expression
tree of the ops the module emits; calls to external collaborators
(`optimize_loss`, `head.head_ops`) are embedded as records of the arguments
passed to them.
-/

namespace DnnEstimators

/-- Execution modes of `model_fn.ModeKeys`: TRAIN, EVAL, INFER (INFER is
prediction). -/
inductive ModeKeys where
  | TRAIN
  | EVAL
  | INFER
deriving DecidableEq

/-- Python value occupying the `optimizer` hyperparameter slot: `None`, a
string name, a number, an optimizer instance, or a zero-argument callable.
A pure zero-argument callable is represented by the value it returns. -/
inductive OptVal where
  | pyNone
  | str (s : String)
  | num (n : Int)
  | inst (name : String)
  | fn (result : OptVal)
deriving DecidableEq

/-- Python truthiness of an `OptVal`: `None`, the empty string and the
number 0 are falsy; instances and callables are truthy. -/
def OptVal.truthy : OptVal → Bool
  | .pyNone => false
  | .str s => s != ""
  | .num n => n != 0
  | .inst _ => true
  | .fn _ => true

/-- Python `x or y`: yields `y` when `x` is falsy, else `x`. -/
def pyOr (x y : OptVal) : OptVal :=
  if x.truthy then x else y

/-- Source line 59: `_get_optimizer` invokes a callable argument and returns
any other argument unchanged. -/
def _get_optimizer (optimizer : OptVal) : OptVal :=
  match optimizer with
  | .fn result => result
  | v => v

/-- Opaque identifier of a raw input tensor handed to the model function. -/
abbrev RawTensor := Nat

/-- The `features` argument of the model function: either a Python dict of
named tensors or a single bare tensor. -/
inductive Features where
  | dict (d : List (String × RawTensor))
  | tensor (t : RawTensor)
deriving DecidableEq

/-- Source line 53: `_get_feature_dict` passes a dict through and wraps a
bare tensor in a one-entry dict under the empty-string key. -/
def _get_feature_dict (features : Features) : List (String × RawTensor) :=
  match features with
  | .dict d => d
  | .tensor t => [("", t)]

/-- Arguments this module passes to
`partitioned_variables.min_max_variable_partitioner`: a maximum shard count
and an optional minimum slice size (the module omits the minimum for the
hidden-layer and logits partitioner). -/
structure Partitioner where
  maxPartitions : Nat
  minSliceSize : Option Nat
deriving DecidableEq

/-- The partitioner-factory call, embedded as the record of its arguments. -/
def min_max_variable_partitioner (maxPartitions : Nat) (minSliceSize : Option Nat) :
    Partitioner :=
  { maxPartitions := maxPartitions, minSliceSize := minSliceSize }

/-- Runtime configuration: the only field this module reads is
`num_ps_replicas`. -/
structure RunConfig where
  num_ps_replicas : Nat
deriving DecidableEq

/-- Symbolic tensor graph.  Graph-mode construction only assembles ops, so
the network built by the model function is embedded as the expression tree
of the ops it emits, each carrying the scope name and partitioner chosen by
the module. -/
inductive NetExpr where
  | inputFromFeatureColumns (features : List (String × RawTensor))
      (featureColumns : List Nat) (scope : String) (part : Partitioner)
  | fullyConnected (scope : String) (numUnits : Nat) (activationFn : Option Nat)
      (part : Partitioner) (input : NetExpr)
  | dropout (keepProb : ℚ) (input : NetExpr)
deriving DecidableEq

/-- The hyperparameter bundle (`params` dict) read by `_dnn_model_fn`.
`headLogitsDimension` stands for `head.logits_dimension`; `optimizer` is
`Option` so that an absent key and a present `None` are both expressible. -/
structure DnnParams where
  headLogitsDimension : Nat
  hidden_units : List Nat
  feature_columns : List Nat
  optimizer : Option OptVal
  activation_fn : Option Nat
  dropout : Option ℚ
  gradient_clip_norm : Option ℚ
  embedding_lr_multipliers : Option (List (String × ℚ))

/-- Source line 50: the historical default learning rate 0.05. -/
def _LEARNING_RATE : ℚ := 5 / 100

/-- The call to `optimizers.optimize_loss`, embedded as the record of the
arguments this module passes to it. -/
structure TrainOpCall where
  loss : ℚ
  learning_rate : ℚ
  optimizer : OptVal
  gradient_multipliers : List (String × ℚ)
  clip_gradients : Option ℚ
  name : String
  summaries : List String
deriving DecidableEq

/-- Constructor for the `optimize_loss` call record. -/
def optimize_loss (loss learning_rate : ℚ) (optimizer : OptVal)
    (gradient_multipliers : List (String × ℚ)) (clip_gradients : Option ℚ)
    (name : String) (summaries : List String) : TrainOpCall :=
  { loss := loss, learning_rate := learning_rate, optimizer := optimizer,
    gradient_multipliers := gradient_multipliers, clip_gradients := clip_gradients,
    name := name, summaries := summaries }

/-- Modelled from the spec: `dnn_linear_combined._extract_embedding_lr_multipliers`
is not among the sources.  Per the spec, when per-embedding-column
learning-rate multipliers are specified they are applied to the embedding
variables, which live under the input-layer scope; an unspecified (`None`)
dictionary yields no multipliers. -/
def _extract_embedding_lr_multipliers
    (embedding_lr_multipliers : Option (List (String × ℚ)))
    (parent_scope input_layer_scope : String) : List (String × ℚ) :=
  let _ := parent_scope
  (embedding_lr_multipliers.getD []).map
    (fun p => (input_layer_scope ++ "/" ++ p.1, p.2))

/-- The call to `head.head_ops`, embedded as the record of the arguments the
model function passes to the external head. -/
structure HeadOpsCall where
  features : List (String × RawTensor)
  labels : Option Nat
  mode : ModeKeys
  train_op_fn : ℚ → TrainOpCall
  logits : NetExpr

/-- The hidden-layer loop of `_dnn_model_fn` (source lines 136-151): for each
hidden width, a fully-connected layer under scope `dnn/hiddenlayer_<i>`,
wrapped in dropout exactly when a dropout rate is configured and the mode is
TRAIN (with `keep_prob = 1 - dropout`). -/
def hiddenLayers (part : Partitioner) (activation_fn : Option Nat)
    (dropout : Option ℚ) (mode : ModeKeys) :
    Nat → List Nat → NetExpr → NetExpr
  | _, [], net => net
  | layer_id, num_hidden_units :: rest, net =>
    let net := NetExpr.fullyConnected ("dnn" ++ "/hiddenlayer_" ++ toString layer_id)
      num_hidden_units activation_fn part net
    let net :=
      match dropout, mode with
      | some d, ModeKeys.TRAIN => NetExpr.dropout (1 - d) net
      | _, _ => net
    hiddenLayers part activation_fn dropout mode (layer_id + 1) rest net

/-- Source lines 71-180: `_dnn_model_fn`.  Reads the hyperparameters, builds
input layer, hidden layers and logits with the partitioners derived from the
runtime config, and hands logits plus the training-op factory to the head. -/
def _dnn_model_fn (features : Features) (labels : Option Nat) (mode : ModeKeys)
    (params : DnnParams) (config : Option RunConfig) : HeadOpsCall :=
  let hidden_units := params.hidden_units
  let feature_columns := params.feature_columns
  let optimizer := pyOr (params.optimizer.getD OptVal.pyNone) (OptVal.str "Adagrad")
  let activation_fn := params.activation_fn
  let dropout := params.dropout
  let gradient_clip_norm := params.gradient_clip_norm
  let num_ps_replicas := match config with
    | some c => c.num_ps_replicas
    | none => 0
  let embedding_lr_multipliers := params.embedding_lr_multipliers
  let features := _get_feature_dict features
  let input_layer_partitioner :=
    min_max_variable_partitioner num_ps_replicas (some (64 <<< 20))
  let input_layer_scope := "dnn" ++ "/input_from_feature_columns"
  let net := NetExpr.inputFromFeatureColumns features feature_columns
    input_layer_scope input_layer_partitioner
  let hidden_layer_partitioner := min_max_variable_partitioner num_ps_replicas none
  let net := hiddenLayers hidden_layer_partitioner activation_fn dropout mode 0
    hidden_units net
  let logits := NetExpr.fullyConnected ("dnn" ++ "/logits")
    params.headLogitsDimension none hidden_layer_partitioner net
  let train_op_fn : ℚ → TrainOpCall := fun loss =>
    optimize_loss loss _LEARNING_RATE (_get_optimizer optimizer)
      (_extract_embedding_lr_multipliers embedding_lr_multipliers "dnn"
        input_layer_scope)
      gradient_clip_norm "dnn" []
  { features := features, labels := labels, mode := mode,
    train_op_fn := train_op_fn, logits := logits }

/-- Number of dropout ops in a graph. -/
def dropoutCount : NetExpr → Nat
  | .inputFromFeatureColumns .. => 0
  | .fullyConnected _ _ _ _ e => dropoutCount e
  | .dropout _ e => dropoutCount e + 1

/-- Scope names of the fully-connected layers of a graph, in build order
(hidden layers first, logits last). -/
def fcScopes : NetExpr → List String
  | .inputFromFeatureColumns .. => []
  | .fullyConnected s _ _ _ e => fcScopes e ++ [s]
  | .dropout _ e => fcScopes e

/-- Partitioners of the fully-connected layers of a graph, in build order. -/
def fcParts : NetExpr → List Partitioner
  | .inputFromFeatureColumns .. => []
  | .fullyConnected _ _ _ p e => fcParts e ++ [p]
  | .dropout _ e => fcParts e

/-- Partitioners of the input-encoding ops of a graph. -/
def inputParts : NetExpr → List Partitioner
  | .inputFromFeatureColumns _ _ _ p => [p]
  | .fullyConnected _ _ _ _ e => inputParts e
  | .dropout _ e => inputParts e

/-- Source line 46. -/
def _CENTERED_BIAS_WEIGHT : String := "centered_bias_weight"

/-- Source lines 473-479: the deprecated `weights_` accessor fetches the
per-hidden-layer weight arrays by the fixed names, then the logits-layer
weights.  `env` stands for `get_variable_value`. -/
def DNNClassifier.weights_ {α : Type} (hidden_units : List Nat)
    (env : String → α) : List α :=
  (hidden_units.enum.map
    (fun p => env ("dnn/hiddenlayer_" ++ toString p.1 ++ "/weights")))
  ++ [env "dnn/logits/weights"]

/-- Source lines 486-496: the deprecated `bias_` accessor fetches the
per-hidden-layer bias arrays, the logits-layer biases, and, when centered
bias is enabled, the centered-bias weight. -/
def DNNClassifier.bias_ {α : Type} (hidden_units : List Nat)
    (enable_centered_bias : Bool) (env : String → α) : List α :=
  (hidden_units.enum.map
    (fun p => env ("dnn/hiddenlayer_" ++ toString p.1 ++ "/biases")))
  ++ [env "dnn/logits/biases"]
  ++ (if enable_centered_bias then [env _CENTERED_BIAS_WEIGHT] else [])

/-- The multi-class head object, as far as this module observes it. -/
structure MultiClassHead where
  n_classes : Nat
  weight_column_name : Option String
  enable_centered_bias : Bool
deriving DecidableEq

/-- Modelled from the spec: `head_lib._multi_class_head` is not among the
sources.  Per the spec, head construction validates the class count and
raises a validation failure when `n_classes < 2`. -/
def _multi_class_head (n_classes : Nat) (weight_column_name : Option String)
    (enable_centered_bias : Bool) : Except String MultiClassHead :=
  if n_classes < 2 then
    Except.error "n_classes should be greater than 1"
  else
    Except.ok { n_classes := n_classes, weight_column_name := weight_column_name,
                enable_centered_bias := enable_centered_bias }

/-- The state a successfully constructed `DNNClassifier` holds (source lines
297-318): the remembered hidden units and centered-bias flag, the head built
during `__init__`, and the parameter bundle handed to the generic
estimator. -/
structure DNNClassifier where
  _hidden_units : List Nat
  _enable_centered_bias : Bool
  head : MultiClassHead
  params : DnnParams

/-- Source lines 237-318: `DNNClassifier.__init__` builds the multi-class
head (validating `n_classes`) and packages the hyperparameters; a head
validation failure aborts construction, so no instance (and hence no `fit`)
ever exists. -/
def DNNClassifier.init (hidden_units feature_columns : List Nat)
    (n_classes : Nat) (weight_column_name : Option String)
    (optimizer : Option OptVal) (activation_fn : Option Nat)
    (dropout : Option ℚ) (gradient_clip_norm : Option ℚ)
    (enable_centered_bias : Bool)
    (embedding_lr_multipliers : Option (List (String × ℚ))) :
    Except String DNNClassifier :=
  match _multi_class_head n_classes weight_column_name enable_centered_bias with
  | Except.error e => Except.error e
  | Except.ok head =>
    Except.ok
      { _hidden_units := hidden_units,
        _enable_centered_bias := enable_centered_bias,
        head := head,
        params :=
          { headLogitsDimension := n_classes,
            hidden_units := hidden_units,
            feature_columns := feature_columns,
            optimizer := optimizer,
            activation_fn := activation_fn,
            dropout := dropout,
            gradient_clip_norm := gradient_clip_norm,
            embedding_lr_multipliers := embedding_lr_multipliers } }

/-- Prediction keys owned by the head (`prediction_key.PredictionKey`). -/
inductive PredictionKey where
  | CLASSES
  | PROBABILITIES
  | SCORES
deriving DecidableEq

/-- A per-example prediction value produced by the head: a class index or a
probability vector. -/
inductive HeadPred where
  | cls (i : Nat)
  | probs (p : List ℚ)
deriving DecidableEq

/-- Index of the first maximum of a list (0 on the empty list). -/
def argmaxAux {α : Type} [LinearOrder α] : α → Nat → Nat → List α → Nat
  | _, bestIdx, _, [] => bestIdx
  | best, bestIdx, i, x :: xs =>
    if best < x then argmaxAux x i (i + 1) xs
    else argmaxAux best bestIdx (i + 1) xs

/-- Index of the first maximum of a list (0 on the empty list). -/
def argmaxIdx {α : Type} [LinearOrder α] : List α → Nat
  | [] => 0
  | x :: xs => argmaxAux x 0 1 xs

/-- Modelled from the spec: the per-example probability vector the
multi-class head places under the PROBABILITIES key (the head `_Head` is an
external collaborator, not among the sources).  Per the spec it is a
normalized positive weighting of the logits; embedded as a base-2 softmax
over integer logits so that it is exact rational arithmetic. -/
def headProbabilities (logits : List Int) : List ℚ :=
  let total := (logits.map (fun z => (2 : ℚ) ^ z)).sum
  logits.map (fun z => (2 : ℚ) ^ z / total)

/-- Modelled from the spec: the most-likely class index the multi-class head
places under the CLASSES key. -/
def headClasses (logits : List Int) : Nat :=
  argmaxIdx logits

/-- Modelled from the spec: the prediction dict produced by the multi-class
head for one example. -/
def headPredictions (logits : List Int) : List (PredictionKey × HeadPred) :=
  [(PredictionKey.CLASSES, HeadPred.cls (headClasses logits)),
   (PredictionKey.PROBABILITIES, HeadPred.probs (headProbabilities logits))]

/-- The generic estimator's `predict` restricted to the requested output
keys: it keeps exactly the entries of the head's prediction dict whose key
is in `outputs`. -/
def estimator_predict (logits : List Int) (outputs : List PredictionKey) :
    List (PredictionKey × HeadPred) :=
  (headPredictions logits).filter (fun p => outputs.contains p.1)

/-- Source lines 346-369: `DNNClassifier.predict` requests the CLASSES
prediction key and extracts that entry per example. -/
def DNNClassifier.predict (logits : List Int) : Option HeadPred :=
  let key := PredictionKey.CLASSES
  List.lookup key (estimator_predict logits [key])

/-- Source lines 374-398: `DNNClassifier.predict_proba` requests the
PROBABILITIES prediction key and extracts that entry per example. -/
def DNNClassifier.predict_proba (logits : List Int) : Option HeadPred :=
  let key := PredictionKey.PROBABILITIES
  List.lookup key (estimator_predict logits [key])

/-- A key of the `metrics` dict passed to `DNNRegressor.evaluate`: either a
bare name or a `(name, prediction key)` tuple. -/
inductive MetricKey where
  | name (s : String)
  | pair (s : String) (k : PredictionKey)
deriving DecidableEq

/-- A value of the `metrics` dict: a `MetricSpec` instance or a bare metric
function (anything that is not a `MetricSpec`). -/
inductive MetricVal where
  | metricSpec (id : Nat)
  | metricFn (id : Nat)
deriving DecidableEq

/-- Python dict assignment `d[k] = v` on an association list: overwrite the
existing entry for `k`, else append. -/
def dictInsert (d : List (MetricKey × MetricVal)) (k : MetricKey)
    (v : MetricVal) : List (MetricKey × MetricVal) :=
  if (List.lookup k d).isSome then
    d.map (fun p => if p.1 = k then (k, v) else p)
  else
    d ++ [(k, v)]

/-- Source lines 645-662: the metrics rewrite in `DNNRegressor.evaluate`.
Starting from an empty dict, every entry whose value is not a `MetricSpec`
and whose key is not a tuple is stored under `(key, SCORES)`; every other
entry is stored under its original key.  A falsy `metrics` argument (`None`
or the empty dict) skips the loop, so the empty dict is forwarded. -/
def DNNRegressor.evaluate_metrics
    (metrics : Option (List (MetricKey × MetricVal))) :
    List (MetricKey × MetricVal) :=
  match metrics with
  | none => []
  | some m =>
    if m.isEmpty then []
    else
      m.foldl (fun custom_metrics kv =>
        match kv.2, kv.1 with
        | MetricVal.metricFn f, MetricKey.name s =>
          dictInsert custom_metrics (MetricKey.pair s PredictionKey.SCORES)
            (MetricVal.metricFn f)
        | metric, key => dictInsert custom_metrics key metric) []

/-- The per-entry rewrite the claim describes: a non-`MetricSpec` value under
a bare (non-tuple) key moves to `(key, SCORES)`; everything else keeps its
key. -/
def rewriteMetricEntry : MetricKey × MetricVal → MetricKey × MetricVal
  | (MetricKey.name s, MetricVal.metricFn f) =>
    (MetricKey.pair s PredictionKey.SCORES, MetricVal.metricFn f)
  | kv => kv

/-- Claim C5: `_dnn_model_fn` (via `_get_feature_dict`) normalizes a
non-dict `features` argument to a one-entry mapping under the empty-string
key holding the original tensor, and passes a dict argument through
unchanged. -/
theorem feature_dict_normalization :
    (∀ features labels mode params config,
      (_dnn_model_fn features labels mode params config).features =
        _get_feature_dict features) ∧
    (∀ t : RawTensor, _get_feature_dict (Features.tensor t) = [("", t)]) ∧
    (∀ d, _get_feature_dict (Features.dict d) = d) :=
  ⟨fun _ _ _ _ _ => rfl, fun _ => rfl, fun _ => rfl⟩

/-- Claim C10: the Adagrad default is selected for every falsy `optimizer`
hyperparameter value, not only `None` but also an absent key, an empty
string or 0, because the optimizer is read as
`params.get("optimizer") or "Adagrad"`. -/
theorem adagrad_default_for_falsy_optimizer :
    (∀ features labels mode params config loss,
      (params.optimizer.getD OptVal.pyNone).truthy = false →
      ((_dnn_model_fn features labels mode params config).train_op_fn
          loss).optimizer = OptVal.str "Adagrad") ∧
    ((none : Option OptVal).getD OptVal.pyNone).truthy = false ∧
    OptVal.truthy OptVal.pyNone = false ∧
    OptVal.truthy (OptVal.str "") = false ∧
    OptVal.truthy (OptVal.num 0) = false := by
  refine ⟨?_, rfl, rfl, by decide, by decide⟩
  intro features labels mode params config loss h
  simp [_dnn_model_fn, optimize_loss, pyOr, h, _get_optimizer]

/-- Witness for C10 at a concrete bundle configuring the empty string as the
optimizer. -/
theorem adagrad_default_for_falsy_optimizer_witness :
    ((_dnn_model_fn (Features.tensor 0) none ModeKeys.TRAIN
        { headLogitsDimension := 2, hidden_units := [3],
          feature_columns := [0], optimizer := some (OptVal.str ""),
          activation_fn := none, dropout := none, gradient_clip_norm := none,
          embedding_lr_multipliers := none } none).train_op_fn
      1).optimizer = OptVal.str "Adagrad" :=
  adagrad_default_for_falsy_optimizer.1 (Features.tensor 0) none
    ModeKeys.TRAIN _ none 1 (by decide)

/-- Claim C2: the training-op factory calls `optimize_loss` at the fixed
learning rate 0.05 with the configured optimizer (Adagrad when none is
configured), the configured global-norm clipping value, and the extracted
per-embedding-column learning-rate multipliers. -/
theorem train_op_factory_arguments :
    (∀ features labels mode params config loss,
      (_dnn_model_fn features labels mode params config).train_op_fn loss =
        optimize_loss loss _LEARNING_RATE
          (_get_optimizer (pyOr (params.optimizer.getD OptVal.pyNone)
            (OptVal.str "Adagrad")))
          (_extract_embedding_lr_multipliers params.embedding_lr_multipliers
            "dnn" ("dnn" ++ "/input_from_feature_columns"))
          params.gradient_clip_norm "dnn" []) ∧
    (∀ features labels mode params config loss,
      params.optimizer = none →
      ((_dnn_model_fn features labels mode params config).train_op_fn
          loss).optimizer = OptVal.str "Adagrad") ∧
    _LEARNING_RATE = 1 / 20 := by
  refine ⟨fun _ _ _ _ _ _ => rfl, ?_, by norm_num [_LEARNING_RATE]⟩
  intro features labels mode params config loss h
  simp [_dnn_model_fn, optimize_loss, pyOr, h, _get_optimizer, OptVal.truthy]

/-- Witness for C2 at a concrete parameter bundle with no configured
optimizer. -/
theorem train_op_factory_arguments_witness :
    ((_dnn_model_fn (Features.tensor 0) none ModeKeys.TRAIN
        { headLogitsDimension := 2, hidden_units := [3],
          feature_columns := [0], optimizer := none, activation_fn := none,
          dropout := none, gradient_clip_norm := some 5,
          embedding_lr_multipliers := none } none).train_op_fn
      1).optimizer = OptVal.str "Adagrad" :=
  train_op_factory_arguments.2.1 (Features.tensor 0) none ModeKeys.TRAIN _
    none 1 rfl

/-- Claim C3: for every `n_classes < 2`, `DNNClassifier` construction fails
during head construction inside `__init__`: the head validation raises an
error and `init` propagates exactly that error, so no instance exists and
`fit` can never be reached. -/
theorem classifier_rejects_small_n_classes
    (hidden_units feature_columns : List Nat) (n_classes : Nat)
    (weight_column_name : Option String) (optimizer : Option OptVal)
    (activation_fn : Option Nat) (dropout : Option ℚ)
    (gradient_clip_norm : Option ℚ) (enable_centered_bias : Bool)
    (embedding_lr_multipliers : Option (List (String × ℚ)))
    (h : n_classes < 2) :
    ∃ e, _multi_class_head n_classes weight_column_name enable_centered_bias =
        Except.error e ∧
      DNNClassifier.init hidden_units feature_columns n_classes
        weight_column_name optimizer activation_fn dropout gradient_clip_norm
        enable_centered_bias embedding_lr_multipliers = Except.error e := by
  refine ⟨"n_classes should be greater than 1", ?_, ?_⟩ <;>
    simp [_multi_class_head, DNNClassifier.init, h]

/-- Witness for C3 at `n_classes = 1`. -/
theorem classifier_rejects_small_n_classes_witness :
    ∃ e, _multi_class_head 1 none false = Except.error e ∧
      DNNClassifier.init [3] [0] 1 none none none none none false none =
        Except.error e :=
  classifier_rejects_small_n_classes [3] [0] 1 none none none none none
    false none (by decide)

theorem hiddenLayers_dropoutCount (part : Partitioner) (a : Option Nat)
    (d : Option ℚ) (m : ModeKeys) :
    ∀ (hu : List Nat) (i : Nat) (net : NetExpr),
      dropoutCount (hiddenLayers part a d m i hu net) =
        dropoutCount net +
          (match d, m with
            | some _, ModeKeys.TRAIN => hu.length
            | _, _ => 0) := by
  intro hu
  induction hu with
  | nil => intro i net; cases d <;> cases m <;> simp [hiddenLayers]
  | cons x xs ih =>
    intro i net
    cases d <;> cases m <;>
      (simp [hiddenLayers, ih, dropoutCount]; try omega)

theorem hiddenLayers_not_train (part : Partitioner) (a : Option Nat)
    (d : Option ℚ) (m : ModeKeys) (hm : m ≠ ModeKeys.TRAIN) :
    ∀ (hu : List Nat) (i : Nat) (net : NetExpr),
      hiddenLayers part a d m i hu net = hiddenLayers part a none m i hu net := by
  intro hu
  induction hu with
  | nil => intro i net; rfl
  | cons x xs ih =>
    intro i net
    cases d with
    | none => rfl
    | some q =>
      cases m with
      | TRAIN => exact absurd rfl hm
      | EVAL => simpa [hiddenLayers] using ih (i + 1) _
      | INFER => simpa [hiddenLayers] using ih (i + 1) _

theorem hiddenLayers_fcParts (part : Partitioner) (a : Option Nat)
    (d : Option ℚ) (m : ModeKeys) :
    ∀ (hu : List Nat) (i : Nat) (net : NetExpr),
      fcParts (hiddenLayers part a d m i hu net) =
        fcParts net ++ List.replicate hu.length part := by
  intro hu
  induction hu with
  | nil => intro i net; simp [hiddenLayers]
  | cons x xs ih =>
    intro i net
    cases d <;> cases m <;>
      simp [hiddenLayers, ih, fcParts, List.replicate_succ, List.append_assoc]

theorem hiddenLayers_inputParts (part : Partitioner) (a : Option Nat)
    (d : Option ℚ) (m : ModeKeys) :
    ∀ (hu : List Nat) (i : Nat) (net : NetExpr),
      inputParts (hiddenLayers part a d m i hu net) = inputParts net := by
  intro hu
  induction hu with
  | nil => intro i net; rfl
  | cons x xs ih =>
    intro i net
    cases d <;> cases m <;> simp [hiddenLayers, ih, inputParts]

theorem hiddenLayers_fcScopes (part : Partitioner) (a : Option Nat)
    (d : Option ℚ) (m : ModeKeys) :
    ∀ (hu : List Nat) (i : Nat) (net : NetExpr),
      fcScopes (hiddenLayers part a d m i hu net) =
        fcScopes net ++ (List.range' i hu.length 1).map
          (fun j => "dnn" ++ "/hiddenlayer_" ++ toString j) := by
  intro hu
  induction hu with
  | nil => intro i net; simp [hiddenLayers]
  | cons x xs ih =>
    intro i net
    cases d <;> cases m <;>
      simp [hiddenLayers, ih, fcScopes, List.range'_succ, List.append_assoc]

/-- Claim C1: dropout wraps each hidden layer's output exactly when the mode
is TRAIN and a dropout rate is configured (one dropout op per hidden layer,
none otherwise), and in EVAL or INFER mode the built network is identical to
the network built with no dropout configured. -/
theorem dropout_inert_outside_train (features : Features)
    (labels : Option Nat) (mode : ModeKeys) (params : DnnParams)
    (config : Option RunConfig) :
    dropoutCount (_dnn_model_fn features labels mode params config).logits =
      (if params.dropout.isSome ∧ mode = ModeKeys.TRAIN then
        params.hidden_units.length else 0) ∧
    (mode = ModeKeys.EVAL ∨ mode = ModeKeys.INFER →
      (_dnn_model_fn features labels mode params config).logits =
        (_dnn_model_fn features labels mode { params with dropout := none }
          config).logits) := by
  constructor
  · show dropoutCount (NetExpr.fullyConnected _ _ _ _ _) = _
    simp only [dropoutCount]
    rw [hiddenLayers_dropoutCount]
    cases hd : params.dropout <;> cases mode <;>
      simp [dropoutCount]
  · intro hmode
    have hm : mode ≠ ModeKeys.TRAIN := by
      rcases hmode with h | h <;> subst h <;> intro hc <;> cases hc
    show NetExpr.fullyConnected _ _ _ _ _ = NetExpr.fullyConnected _ _ _ _ _
    rw [hiddenLayers_not_train _ _ _ _ hm]

/-- Witness for C1 at a concrete bundle with dropout 1/2 in EVAL mode. -/
theorem dropout_inert_outside_train_witness :
    dropoutCount (_dnn_model_fn (Features.tensor 0) none ModeKeys.EVAL
      { headLogitsDimension := 2, hidden_units := [3, 2],
        feature_columns := [0], optimizer := none, activation_fn := none,
        dropout := some (1 / 2), gradient_clip_norm := none,
        embedding_lr_multipliers := none } none).logits = 0 ∧
    (_dnn_model_fn (Features.tensor 0) none ModeKeys.EVAL
      { headLogitsDimension := 2, hidden_units := [3, 2],
        feature_columns := [0], optimizer := none, activation_fn := none,
        dropout := some (1 / 2), gradient_clip_norm := none,
        embedding_lr_multipliers := none } none).logits =
    (_dnn_model_fn (Features.tensor 0) none ModeKeys.EVAL
      { headLogitsDimension := 2, hidden_units := [3, 2],
        feature_columns := [0], optimizer := none, activation_fn := none,
        dropout := none, gradient_clip_norm := none,
        embedding_lr_multipliers := none } none).logits :=
  ⟨(dropout_inert_outside_train (Features.tensor 0) none ModeKeys.EVAL _
      none).1,
    (dropout_inert_outside_train (Features.tensor 0) none ModeKeys.EVAL _
      none).2 (Or.inl rfl)⟩

/-- Claim C8: the variable-partitioning hint is derived solely from the
runtime config: the max shard count of every partitioner equals
`config.num_ps_replicas` (0 when no config is supplied), the input-layer
partitioner alone carries the 64MiB minimum slice size, and the hidden and
logits layers all use the minimum-free partitioner. -/
theorem partitioning_hint_from_config (features : Features)
    (labels : Option Nat) (mode : ModeKeys) (params : DnnParams)
    (config : Option RunConfig) :
    inputParts (_dnn_model_fn features labels mode params config).logits =
      [min_max_variable_partitioner
        (match config with
          | some c => c.num_ps_replicas
          | none => 0) (some (64 <<< 20))] ∧
    fcParts (_dnn_model_fn features labels mode params config).logits =
      List.replicate (params.hidden_units.length + 1)
        (min_max_variable_partitioner
          (match config with
            | some c => c.num_ps_replicas
            | none => 0) none) := by
  constructor
  · show inputParts (NetExpr.fullyConnected _ _ _ _ _) = _
    simp only [inputParts]
    rw [hiddenLayers_inputParts]
    rfl
  · show fcParts (NetExpr.fullyConnected _ _ _ _ _) = _
    simp only [fcParts]
    rw [hiddenLayers_fcParts]
    simp [fcParts, List.replicate_succ']

theorem logits_biases_append :
    ("dnn/logits" ++ "/biases" : String) = "dnn/logits/biases" := rfl

theorem enum_fst_map {α β : Type} (l : List β) (g : Nat → α) :
    l.enum.map (fun p => g p.1) = (List.range l.length).map g := by
  rw [show (fun p : Nat × β => g p.1) = g ∘ Prod.fst from rfl, ← List.map_map,
    List.enum_map_fst]

theorem hidden_names_map {α : Type} (hu : List Nat) (env : String → α)
    (suffix : String) :
    hu.enum.map (fun p => env ("dnn/hiddenlayer_" ++ toString p.1 ++ suffix)) =
      ((List.range hu.length).map
        (fun i => "dnn/hiddenlayer_" ++ toString i)).map
        (fun s => env (s ++ suffix)) := by
  rw [List.map_map]
  exact enum_fst_map hu (fun i => env ("dnn/hiddenlayer_" ++ toString i ++ suffix))

/-- Claim C6: variable naming is deterministic: the fully-connected scopes
of the built graph are `dnn/hiddenlayer_<i>` in index order followed by
`dnn/logits`, and the deprecated `weights_` and `bias_` accessors fetch
exactly the per-hidden-layer arrays followed by the logits-layer array at
those scopes' `/weights` and `/biases` names, `bias_` additionally appending
`centered_bias_weight` when centered bias is enabled. -/
theorem deterministic_variable_naming {α : Type} (features : Features)
    (labels : Option Nat) (mode : ModeKeys) (params : DnnParams)
    (config : Option RunConfig) (env : String → α) :
    fcScopes (_dnn_model_fn features labels mode params config).logits =
      (List.range params.hidden_units.length).map
        (fun i => "dnn/hiddenlayer_" ++ toString i) ++ ["dnn/logits"] ∧
    DNNClassifier.weights_ params.hidden_units env =
      (fcScopes (_dnn_model_fn features labels mode params config).logits).map
        (fun s => env (s ++ "/weights")) ∧
    DNNClassifier.bias_ params.hidden_units false env =
      (fcScopes (_dnn_model_fn features labels mode params config).logits).map
        (fun s => env (s ++ "/biases")) ∧
    DNNClassifier.bias_ params.hidden_units true env =
      (fcScopes (_dnn_model_fn features labels mode params config).logits).map
        (fun s => env (s ++ "/biases")) ++ [env "centered_bias_weight"] := by
  have hs : fcScopes (_dnn_model_fn features labels mode params config).logits =
      (List.range params.hidden_units.length).map
        (fun i => "dnn/hiddenlayer_" ++ toString i) ++ ["dnn/logits"] := by
    show fcScopes (NetExpr.fullyConnected _ _ _ _ _) = _
    simp only [fcScopes]
    rw [hiddenLayers_fcScopes, List.range_eq_range']
    rfl
  refine ⟨hs, ?_, ?_, ?_⟩
  · rw [hs]
    simp only [DNNClassifier.weights_, List.map_append]
    rw [hidden_names_map]
    rfl
  · rw [hs]
    simp only [DNNClassifier.bias_, List.map_append]
    rw [hidden_names_map]
    simp [logits_biases_append]
  · rw [hs]
    simp only [DNNClassifier.bias_, List.map_append]
    rw [hidden_names_map]
    simp [logits_biases_append, _CENTERED_BIAS_WEIGHT]

/-- Counterexample to claim C4 as stated: the zero-argument callable
returning `None` is not equivalent to passing its invocation result `None`
directly.  The callable is truthy, so it survives the `or "Adagrad"`
defaulting and is invoked at training-op time yielding a `None` optimizer,
while a direct `None` is falsy and selects the Adagrad default. -/
theorem callable_optimizer_counterexample :
    ¬ (_dnn_model_fn (Features.tensor 0) none ModeKeys.TRAIN
        { headLogitsDimension := 2, hidden_units := [3],
          feature_columns := [0],
          optimizer := some (OptVal.fn OptVal.pyNone), activation_fn := none,
          dropout := none, gradient_clip_norm := none,
          embedding_lr_multipliers := none } none =
      _dnn_model_fn (Features.tensor 0) none ModeKeys.TRAIN
        { headLogitsDimension := 2, hidden_units := [3],
          feature_columns := [0], optimizer := some OptVal.pyNone,
          activation_fn := none, dropout := none, gradient_clip_norm := none,
          embedding_lr_multipliers := none } none) := by
  intro h
  have h2 := congrArg (fun o => (o.train_op_fn 0).optimizer) h
  simp [_dnn_model_fn, optimize_loss, pyOr, _get_optimizer, OptVal.truthy]
    at h2

/-- Claim C4 amended: `_get_optimizer` invokes a callable argument and
returns any non-callable argument unchanged, and for every zero-argument
callable whose result is truthy and not itself callable, passing the
callable as the optimizer hyperparameter makes `_dnn_model_fn` behave
identically to passing its invocation result directly.  (A callable whose
result is falsy is not equivalent: the direct result would trigger the
Adagrad defaulting, see the counterexample.) -/
theorem callable_optimizer_equivalence :
    (∀ v, _get_optimizer (OptVal.fn v) = v) ∧
    (∀ v, (∀ w, v ≠ OptVal.fn w) → _get_optimizer v = v) ∧
    (∀ (r : OptVal) (features : Features) (labels : Option Nat)
      (mode : ModeKeys) (params : DnnParams) (config : Option RunConfig),
      r.truthy = true → (∀ w, r ≠ OptVal.fn w) →
      _dnn_model_fn features labels mode
        { params with optimizer := some (OptVal.fn r) } config =
      _dnn_model_fn features labels mode
        { params with optimizer := some r } config) := by
  have hnc : ∀ v : OptVal, (∀ w, v ≠ OptVal.fn w) → _get_optimizer v = v := by
    intro v hv
    cases v with
    | fn w => exact absurd rfl (hv w)
    | pyNone => rfl
    | str s => rfl
    | num n => rfl
    | inst n => rfl
  refine ⟨fun _ => rfl, hnc, ?_⟩
  intro r features labels mode params config ht hv
  simp [_dnn_model_fn, pyOr, ht, _get_optimizer, hnc r hv,
    show ∀ v, (OptVal.fn v).truthy = true from fun _ => rfl]

/-- Witness for the amended C4 at the callable returning the name
`"Adam"`. -/
theorem callable_optimizer_equivalence_witness :
    _get_optimizer (OptVal.fn (OptVal.str "Adam")) = OptVal.str "Adam" ∧
    _dnn_model_fn (Features.tensor 0) none ModeKeys.TRAIN
      { headLogitsDimension := 2, hidden_units := [3], feature_columns := [0],
        optimizer := some (OptVal.fn (OptVal.str "Adam")),
        activation_fn := none, dropout := none, gradient_clip_norm := none,
        embedding_lr_multipliers := none } none =
    _dnn_model_fn (Features.tensor 0) none ModeKeys.TRAIN
      { headLogitsDimension := 2, hidden_units := [3], feature_columns := [0],
        optimizer := some (OptVal.str "Adam"), activation_fn := none,
        dropout := none, gradient_clip_norm := none,
        embedding_lr_multipliers := none } none :=
  ⟨callable_optimizer_equivalence.1 (OptVal.str "Adam"),
    callable_optimizer_equivalence.2.2 (OptVal.str "Adam") (Features.tensor 0)
      none ModeKeys.TRAIN
      { headLogitsDimension := 2, hidden_units := [3], feature_columns := [0],
        optimizer := some (OptVal.str "Adam"), activation_fn := none,
        dropout := none, gradient_clip_norm := none,
        embedding_lr_multipliers := none } none (by decide)
      (fun w h => OptVal.noConfusion h)⟩

theorem lookup_append_none {k : MetricKey} :
    ∀ (l₁ l₂ : List (MetricKey × MetricVal)), List.lookup k l₁ = none →
      List.lookup k (l₁ ++ l₂) = List.lookup k l₂ := by
  intro l₁
  induction l₁ with
  | nil => intro l₂ _; rfl
  | cons p t ih =>
    intro l₂ h
    cases p with
    | mk k1 v1 =>
      simp only [List.cons_append, List.lookup] at h ⊢
      cases hk : (k == k1) with
      | true => simp [hk] at h
      | false => simp only [hk] at h ⊢; exact ih l₂ h

theorem lookup_singleton_ne {k : MetricKey} {p : MetricKey × MetricVal}
    (h : (k == p.1) = false) : List.lookup k [p] = none := by
  simp [List.lookup, h]

theorem dictInsert_of_none (d : List (MetricKey × MetricVal)) (k : MetricKey)
    (v : MetricVal) (h : List.lookup k d = none) :
    dictInsert d k v = d ++ [(k, v)] := by
  simp [dictInsert, h]

theorem metrics_step_eq (custom : List (MetricKey × MetricVal))
    (kv : MetricKey × MetricVal) :
    (match kv.2, kv.1 with
      | MetricVal.metricFn f, MetricKey.name s =>
        dictInsert custom (MetricKey.pair s PredictionKey.SCORES)
          (MetricVal.metricFn f)
      | metric, key => dictInsert custom key metric) =
      dictInsert custom (rewriteMetricEntry kv).1 (rewriteMetricEntry kv).2 := by
  rcases kv with ⟨k, v⟩
  cases v <;> cases k <;> rfl

theorem metrics_foldl_eq :
    ∀ (m acc : List (MetricKey × MetricVal)),
      (∀ p ∈ m.map rewriteMetricEntry, List.lookup p.1 acc = none) →
      ((m.map rewriteMetricEntry).map Prod.fst).Nodup →
      m.foldl (fun custom_metrics kv =>
        match kv.2, kv.1 with
        | MetricVal.metricFn f, MetricKey.name s =>
          dictInsert custom_metrics (MetricKey.pair s PredictionKey.SCORES)
            (MetricVal.metricFn f)
        | metric, key => dictInsert custom_metrics key metric) acc =
        acc ++ m.map rewriteMetricEntry := by
  intro m
  induction m with
  | nil => intro acc _ _; simp
  | cons kv t ih =>
    intro acc hacc hnd
    have hhead : List.lookup (rewriteMetricEntry kv).1 acc = none :=
      hacc (rewriteMetricEntry kv) (by simp)
    have hnd' := hnd
    simp only [List.map_cons, List.nodup_cons] at hnd'
    rw [List.foldl_cons, metrics_step_eq,
      dictInsert_of_none _ _ _ hhead,
      ih (acc ++ [rewriteMetricEntry kv]) ?_ hnd'.2]
    · simp
    · intro p hp
      have h1 : List.lookup p.1 acc = none := hacc p (by simp [hp])
      have h2 : (p.1 == (rewriteMetricEntry kv).1) = false := by
        have : p.1 ≠ (rewriteMetricEntry kv).1 := by
          intro he
          exact hnd'.1 (he ▸ List.mem_map_of_mem Prod.fst hp)
        simpa using this
      rw [lookup_append_none _ _ h1]
      exact lookup_singleton_ne h2

/-- Claim C7: `DNNRegressor.evaluate` rewrites its metrics mapping before
delegating: every entry whose value is not a `MetricSpec` and whose key is
not a tuple is re-keyed to `(original key, SCORES)`, every other entry keeps
its original key, and with no metrics (`None` or the empty dict) the empty
mapping is forwarded unmodified. -/
theorem regressor_evaluate_metrics_rewrite :
    (∀ m : List (MetricKey × MetricVal),
      ((m.map rewriteMetricEntry).map Prod.fst).Nodup →
      DNNRegressor.evaluate_metrics (some m) = m.map rewriteMetricEntry) ∧
    DNNRegressor.evaluate_metrics none = [] ∧
    DNNRegressor.evaluate_metrics (some []) = [] := by
  refine ⟨?_, rfl, rfl⟩
  intro m hnd
  cases m with
  | nil => rfl
  | cons kv t =>
    show (if (kv :: t).isEmpty then [] else _) = _
    rw [if_neg (by simp)]
    rw [metrics_foldl_eq (kv :: t) [] (by simp) hnd]
    simp

/-- Witness for C7 on a concrete three-entry metrics dict exercising all
branches: a bare-keyed metric function is re-keyed to `(name, SCORES)`, a
tuple-keyed function and a bare-keyed `MetricSpec` keep their keys. -/
theorem regressor_evaluate_metrics_rewrite_witness :
    DNNRegressor.evaluate_metrics (some
      [(MetricKey.name "err", MetricVal.metricFn 0),
       (MetricKey.pair "acc" PredictionKey.SCORES, MetricVal.metricFn 1),
       (MetricKey.name "mse", MetricVal.metricSpec 2)]) =
      [(MetricKey.pair "err" PredictionKey.SCORES, MetricVal.metricFn 0),
       (MetricKey.pair "acc" PredictionKey.SCORES, MetricVal.metricFn 1),
       (MetricKey.name "mse", MetricVal.metricSpec 2)] := by
  have h := regressor_evaluate_metrics_rewrite.1
    [(MetricKey.name "err", MetricVal.metricFn 0),
     (MetricKey.pair "acc" PredictionKey.SCORES, MetricVal.metricFn 1),
     (MetricKey.name "mse", MetricVal.metricSpec 2)] (by decide)
  simpa [rewriteMetricEntry] using h

theorem sum_map_div (l : List ℚ) (c : ℚ) :
    (l.map (fun x => x / c)).sum = l.sum / c := by
  induction l with
  | nil => simp
  | cons x xs ih => simp [ih, add_div]

theorem total_weight_pos (logits : List Int) (h : logits ≠ []) :
    0 < (logits.map (fun z => (2 : ℚ) ^ z)).sum := by
  apply List.sum_pos
  · intro x hx
    obtain ⟨z, _, rfl⟩ := List.mem_map.mp hx
    exact zpow_pos (by norm_num) z
  · simpa using h

theorem headProbabilities_sum (logits : List Int) (h : logits ≠ []) :
    (headProbabilities logits).sum = 1 := by
  have hpos := total_weight_pos logits h
  simp only [headProbabilities]
  rw [show (fun z : Int =>
        (2 : ℚ) ^ z / (logits.map (fun z => (2 : ℚ) ^ z)).sum) =
      ((fun x : ℚ => x / (logits.map (fun z => (2 : ℚ) ^ z)).sum) ∘
        (fun z : Int => (2 : ℚ) ^ z)) from rfl,
    ← List.map_map, sum_map_div, div_self (ne_of_gt hpos)]

theorem argmaxAux_map {α β : Type} [LinearOrder α] [LinearOrder β] (f : α → β)
    (hf : ∀ a b, f a < f b ↔ a < b) :
    ∀ (xs : List α) (b : α) (bi i : Nat),
      argmaxAux (f b) bi i (xs.map f) = argmaxAux b bi i xs := by
  intro xs
  induction xs with
  | nil => intro b bi i; rfl
  | cons x t ih =>
    intro b bi i
    simp only [List.map_cons, argmaxAux]
    by_cases h : b < x
    · rw [if_pos ((hf b x).mpr h), if_pos h, ih]
    · rw [if_neg (fun hc => h ((hf b x).mp hc)), if_neg h, ih]

theorem argmaxIdx_map {α β : Type} [LinearOrder α] [LinearOrder β] (f : α → β)
    (hf : ∀ a b, f a < f b ↔ a < b) (l : List α) :
    argmaxIdx (l.map f) = argmaxIdx l := by
  cases l with
  | nil => rfl
  | cons x t =>
    simp only [List.map_cons, argmaxIdx]
    exact argmaxAux_map f hf t x 0 1

theorem argmaxIdx_headProbabilities (logits : List Int) (h : logits ≠ []) :
    argmaxIdx (headProbabilities logits) = argmaxIdx logits := by
  have hpos := total_weight_pos logits h
  simp only [headProbabilities]
  exact argmaxIdx_map
    (fun z : Int => (2 : ℚ) ^ z / (logits.map (fun z => (2 : ℚ) ^ z)).sum)
    (fun a b => by
      rw [div_lt_div_iff_of_pos_right hpos]
      exact zpow_lt_zpow_iff_right₀ one_lt_two) logits

/-- Claim C9: for a classifier head over `k` classes, the probability vector
fetched under the PROBABILITIES key (the key `predict_proba` requests) has
length `k` and sums to 1, and the class index fetched under the CLASSES key
(the key `predict` requests from the same head) is the index of the maximum
entry of that probability vector. -/
theorem classifier_probability_vector (k : Nat) (logits : List Int)
    (hk : logits.length = k) (hne : logits ≠ []) :
    DNNClassifier.predict_proba logits =
      some (HeadPred.probs (headProbabilities logits)) ∧
    (headProbabilities logits).length = k ∧
    (headProbabilities logits).sum = 1 ∧
    DNNClassifier.predict logits =
      some (HeadPred.cls (argmaxIdx (headProbabilities logits))) := by
  refine ⟨rfl, ?_, headProbabilities_sum logits hne, ?_⟩
  · simp [headProbabilities, hk]
  · rw [argmaxIdx_headProbabilities logits hne]
    rfl

/-- Witness for C9 at logits `[0, 1]` with `k = 2`: the probabilities are
`[1/3, 2/3]`, they sum to 1, and the predicted class is their argmax. -/
theorem classifier_probability_vector_witness :
    headProbabilities [0, 1] = [1 / 3, 2 / 3] ∧
    (headProbabilities [0, 1]).length = 2 ∧
    (headProbabilities [0, 1]).sum = 1 ∧
    DNNClassifier.predict [0, 1] =
      some (HeadPred.cls (argmaxIdx (headProbabilities [0, 1]))) := by
  have h := classifier_probability_vector 2 [0, 1] rfl (by decide)
  exact ⟨by norm_num [headProbabilities], h.2.1, h.2.2.1, h.2.2.2⟩

end DnnEstimators
